import Mathlib

set_option maxHeartbeats 1600000

/-!
Verification of the period-based financial aggregation engine:
a shallow embedding of `src/main.py` (period resolver, aggregator,
notification deriver) with Python datetimes modelled as proleptic
Gregorian calendar structures and monetary floats as rationals.
-/

/-- Model of a Python `datetime` value (UTC): calendar fields. -/
structure PyDateTime where
  year : Int
  month : Int
  day : Int
  hour : Int
  minute : Int
  second : Int
  microsecond : Int
deriving DecidableEq

/-- Gregorian leap-year rule, as used by Python's `datetime` calendar. -/
def isLeap (y : Int) : Bool :=
  (y % 4 == 0 && y % 100 != 0) || y % 400 == 0

/-- Length of a month in the proleptic Gregorian calendar. -/
def daysInMonth (y m : Int) : Int :=
  if m = 2 then (if isLeap y then 29 else 28)
  else if m = 4 ∨ m = 6 ∨ m = 9 ∨ m = 11 then 30
  else 31

/-- A structurally valid `datetime` (field ranges as Python enforces). -/
def ValidDT (dt : PyDateTime) : Prop :=
  1 ≤ dt.month ∧ dt.month ≤ 12 ∧ 1 ≤ dt.day ∧ dt.day ≤ daysInMonth dt.year dt.month ∧
  0 ≤ dt.hour ∧ dt.hour < 24 ∧ 0 ≤ dt.minute ∧ dt.minute < 60 ∧
  0 ≤ dt.second ∧ dt.second < 60 ∧ 0 ≤ dt.microsecond ∧ dt.microsecond < 1000000

instance (dt : PyDateTime) : Decidable (ValidDT dt) := by
  unfold ValidDT; infer_instance

/-- Day count of a civil date (days since 1970-01-01, Hinnant's
`days_from_civil`, floor divisions written with `Int.ediv`). -/
def dayNumber (y m d : Int) : Int :=
  let y2 := if m ≤ 2 then y - 1 else y
  let era := y2 / 400
  let yoe := y2 - era * 400
  let mp := if 3 ≤ m then m - 3 else m + 9
  let doy := (153 * mp + 2) / 5 + (d - 1)
  let doe := yoe * 365 + yoe / 4 - yoe / 100 + doy
  era * 146097 + doe - 719468

/-- Python's `datetime.weekday()`: Monday = 0, ..., Sunday = 6
(1970-01-01 was a Thursday, weekday 3). -/
def pyWeekday (dt : PyDateTime) : Int :=
  (dayNumber dt.year dt.month dt.day + 3) % 7

/-- Mixed-radix encoding of a datetime; for valid datetimes this is a
strictly monotone chronological key, giving the comparison order. -/
def dtKey (dt : PyDateTime) : Int :=
  (((((dt.year * 13 + dt.month) * 32 + dt.day) * 24 + dt.hour) * 60 + dt.minute) * 60
      + dt.second) * 1000000 + dt.microsecond

/-- Python datetime comparison (chronological order on valid datetimes). -/
def dtLE (a b : PyDateTime) : Prop := dtKey a ≤ dtKey b

instance (a b : PyDateTime) : Decidable (dtLE a b) := by
  unfold dtLE; infer_instance

/-- The calendar day before `dt` (time of day untouched):
one step of `now - timedelta(days=k)`. -/
def predDay (dt : PyDateTime) : PyDateTime :=
  if 1 < dt.day then { dt with day := dt.day - 1 }
  else if 1 < dt.month then
    { dt with month := dt.month - 1, day := daysInMonth dt.year (dt.month - 1) }
  else { dt with year := dt.year - 1, month := 12, day := 31 }

/-- `dt - timedelta(days=n)` for a natural `n` (time of day untouched). -/
def subDays (dt : PyDateTime) : Nat → PyDateTime
  | 0 => dt
  | n + 1 => predDay (subDays dt n)

/-- `dt.replace(hour=0, minute=0, second=0, microsecond=0)`. -/
def zeroTime (dt : PyDateTime) : PyDateTime :=
  { dt with hour := 0, minute := 0, second := 0, microsecond := 0 }

/-- Embedding of `start_of_period` from `src/main.py`. -/
def start_of_period (now : PyDateTime) (timeframe : String) : PyDateTime :=
  if timeframe = "daily" then zeroTime now
  else if timeframe = "weekly" then zeroTime (subDays now (pyWeekday now).toNat)
  else if timeframe = "monthly" then zeroTime { now with day := 1 }
  else if timeframe = "yearly" then zeroTime { now with month := 1, day := 1 }
  else now

-- Calendar lemmas

theorem daysInMonth_bounds (y m : Int) : 28 ≤ daysInMonth y m ∧ daysInMonth y m ≤ 31 := by
  unfold daysInMonth
  split_ifs <;> omega

theorem isLeap_true_iff (y : Int) :
    isLeap y = true ↔ (y % 4 = 0 ∧ ¬ y % 100 = 0) ∨ y % 400 = 0 := by
  simp [isLeap]

theorem dayNumber_predDay (dt : PyDateTime) (h : ValidDT dt) :
    dayNumber (predDay dt).year (predDay dt).month (predDay dt).day
      = dayNumber dt.year dt.month dt.day - 1 := by
  obtain ⟨y, mo, d, hh, mi, s, us⟩ := dt
  obtain ⟨hm1, hm2, hd1, hd2, -⟩ := h
  simp only [daysInMonth] at hd2
  unfold predDay
  dsimp only at *
  by_cases hday : 1 < d
  · simp only [if_pos hday, dayNumber]
    split_ifs <;> omega
  · have hd : d = 1 := by split_ifs at hd2 <;> omega
    subst hd
    simp only [if_neg hday]
    by_cases hmon : 1 < mo
    · simp only [if_pos hmon]
      interval_cases mo <;>
        · simp only [dayNumber, daysInMonth]
          split_ifs <;> simp only [isLeap_true_iff, Bool.not_eq_true] at * <;> omega
    · have hmo : mo = 1 := by omega
      subst hmo
      simp only [if_neg hmon, dayNumber]
      split_ifs <;> omega

theorem daysInMonth_12 (y : Int) : daysInMonth y 12 = 31 := by
  unfold daysInMonth
  norm_num

theorem validDT_predDay (dt : PyDateTime) (h : ValidDT dt) : ValidDT (predDay dt) := by
  obtain ⟨y, mo, d, hh, mi, s, us⟩ := dt
  obtain ⟨hm1, hm2, hd1, hd2, hrest⟩ := h
  have hb1 := daysInMonth_bounds y (mo - 1)
  have hb2 := daysInMonth_12 (y - 1)
  dsimp only at hm1 hm2 hd1 hd2 hrest
  unfold predDay
  dsimp only
  split_ifs <;> unfold ValidDT <;> dsimp only <;>
    exact ⟨by omega, by omega, by omega, by omega, hrest⟩

theorem dtKey_predDay_lt (dt : PyDateTime) (h : ValidDT dt) :
    dtKey (predDay dt) < dtKey dt := by
  obtain ⟨y, mo, d, hh, mi, s, us⟩ := dt
  obtain ⟨hm1, hm2, hd1, hd2, hrest⟩ := h
  have hb1 := daysInMonth_bounds y (mo - 1)
  dsimp only at hm1 hm2 hd1 hd2 hrest
  unfold predDay
  dsimp only
  split_ifs <;> unfold dtKey <;> dsimp only <;> omega

theorem dtKey_zeroTime_le (dt : PyDateTime) (h : ValidDT dt) :
    dtKey (zeroTime dt) ≤ dtKey dt := by
  obtain ⟨y, mo, d, hh, mi, s, us⟩ := dt
  obtain ⟨h1, h2, h3, h4, h5, h6, h7, h8, h9, h10, h11, h12⟩ := h
  unfold zeroTime dtKey
  dsimp only at *
  omega

theorem validDT_subDays (dt : PyDateTime) (h : ValidDT dt) (n : Nat) :
    ValidDT (subDays dt n) := by
  induction n with
  | zero => exact h
  | succ k ih => exact validDT_predDay _ ih

theorem dayNumber_subDays (dt : PyDateTime) (h : ValidDT dt) (n : Nat) :
    dayNumber (subDays dt n).year (subDays dt n).month (subDays dt n).day
      = dayNumber dt.year dt.month dt.day - n := by
  induction n with
  | zero => simp [subDays]
  | succ k ih =>
      have hv := validDT_subDays dt h k
      have := dayNumber_predDay _ hv
      simp only [subDays]
      omega

theorem dtKey_subDays_le (dt : PyDateTime) (h : ValidDT dt) (n : Nat) :
    dtKey (subDays dt n) ≤ dtKey dt := by
  induction n with
  | zero => exact le_refl _
  | succ k ih =>
      have hv := validDT_subDays dt h k
      have := dtKey_predDay_lt _ hv
      simp only [subDays]
      omega

theorem subDays_time_fields (dt : PyDateTime) (n : Nat) :
    (subDays dt n).hour = dt.hour ∧ (subDays dt n).minute = dt.minute ∧
    (subDays dt n).second = dt.second ∧ (subDays dt n).microsecond = dt.microsecond := by
  induction n with
  | zero => exact ⟨rfl, rfl, rfl, rfl⟩
  | succ k ih =>
      simp only [subDays, predDay]
      split_ifs <;> exact ih

theorem pyWeekday_nonneg (dt : PyDateTime) : 0 ≤ pyWeekday dt := by
  unfold pyWeekday; omega

theorem pyWeekday_lt7 (dt : PyDateTime) : pyWeekday dt < 7 := by
  unfold pyWeekday; omega

/-- The Monday-on-or-before step: subtracting `weekday(now)` days lands on a
Monday (weekday 0). -/
theorem pyWeekday_subDays_weekday (dt : PyDateTime) (h : ValidDT dt) :
    pyWeekday (subDays dt (pyWeekday dt).toNat) = 0 := by
  have hw0 : 0 ≤ pyWeekday dt := pyWeekday_nonneg dt
  have hsub := dayNumber_subDays dt h (pyWeekday dt).toNat
  unfold pyWeekday at *
  omega

theorem start_of_period_daily (now : PyDateTime) :
    start_of_period now "daily" = zeroTime now := rfl

theorem start_of_period_weekly (now : PyDateTime) :
    start_of_period now "weekly" = zeroTime (subDays now (pyWeekday now).toNat) := rfl

theorem start_of_period_monthly (now : PyDateTime) :
    start_of_period now "monthly" = zeroTime { now with day := 1 } := rfl

theorem start_of_period_yearly (now : PyDateTime) :
    start_of_period now "yearly" = zeroTime { now with month := 1, day := 1 } := rfl

theorem dtKey_zeroTime_day1_le (now : PyDateTime) (h : ValidDT now) :
    dtKey (zeroTime { now with day := 1 }) ≤ dtKey now := by
  obtain ⟨y, mo, d, hh, mi, s, us⟩ := now
  obtain ⟨h1, h2, h3, h4, h5, h6, h7, h8, h9, h10, h11, h12⟩ := h
  unfold zeroTime dtKey
  dsimp only at *
  omega

theorem dtKey_zeroTime_jan1_le (now : PyDateTime) (h : ValidDT now) :
    dtKey (zeroTime { now with month := 1, day := 1 }) ≤ dtKey now := by
  obtain ⟨y, mo, d, hh, mi, s, us⟩ := now
  obtain ⟨h1, h2, h3, h4, h5, h6, h7, h8, h9, h10, h11, h12⟩ := h
  unfold zeroTime dtKey
  dsimp only at *
  omega

/-- C2: for every valid instant `now` and timeframe in
{daily, weekly, monthly, yearly}, `start_of_period` returns an instant with
zero hour/minute/second/microsecond that is ≤ `now`; the weekly result is a
Monday (Python weekday 0), the monthly result is day 1 of `now`'s month, and
the yearly result is January 1 of `now`'s year. -/
theorem C2_start_of_period_window (now : PyDateTime) (hv : ValidDT now) (tf : String)
    (htf : tf = "daily" ∨ tf = "weekly" ∨ tf = "monthly" ∨ tf = "yearly") :
    (start_of_period now tf).hour = 0 ∧ (start_of_period now tf).minute = 0 ∧
    (start_of_period now tf).second = 0 ∧ (start_of_period now tf).microsecond = 0 ∧
    dtLE (start_of_period now tf) now ∧
    (tf = "weekly" → pyWeekday (start_of_period now tf) = 0) ∧
    (tf = "monthly" → (start_of_period now tf).day = 1 ∧
        (start_of_period now tf).month = now.month ∧
        (start_of_period now tf).year = now.year) ∧
    (tf = "yearly" → (start_of_period now tf).month = 1 ∧
        (start_of_period now tf).day = 1 ∧
        (start_of_period now tf).year = now.year) := by
  rcases htf with h | h | h | h <;> subst h
  · rw [start_of_period_daily]
    refine ⟨rfl, rfl, rfl, rfl, dtKey_zeroTime_le now hv, ?_, ?_, ?_⟩ <;>
      · intro hbad; exact absurd hbad (by decide)
  · rw [start_of_period_weekly]
    have hvs : ValidDT (subDays now (pyWeekday now).toNat) :=
      validDT_subDays now hv _
    refine ⟨rfl, rfl, rfl, rfl, ?_, ?_, ?_, ?_⟩
    · exact le_trans (dtKey_zeroTime_le _ hvs) (dtKey_subDays_le now hv _)
    · intro _
      show pyWeekday (subDays now (pyWeekday now).toNat) = 0
      exact pyWeekday_subDays_weekday now hv
    · intro hbad; exact absurd hbad (by decide)
    · intro hbad; exact absurd hbad (by decide)
  · rw [start_of_period_monthly]
    refine ⟨rfl, rfl, rfl, rfl, dtKey_zeroTime_day1_le now hv, ?_, ?_, ?_⟩
    · intro hbad; exact absurd hbad (by decide)
    · intro _; exact ⟨rfl, rfl, rfl⟩
    · intro hbad; exact absurd hbad (by decide)
  · rw [start_of_period_yearly]
    refine ⟨rfl, rfl, rfl, rfl, dtKey_zeroTime_jan1_le now hv, ?_, ?_, ?_⟩
    · intro hbad; exact absurd hbad (by decide)
    · intro hbad; exact absurd hbad (by decide)
    · intro _; exact ⟨rfl, rfl, rfl⟩

/-- Witness for C2 at 2026-10-15 14:30 UTC (a Thursday): the weekly
window start is a Monday with zero time of day, on or before now. -/
theorem C2_start_of_period_window_witness :
    ValidDT ⟨2026, 10, 15, 14, 30, 0, 0⟩ ∧
    pyWeekday (start_of_period ⟨2026, 10, 15, 14, 30, 0, 0⟩ "weekly") = 0 ∧
    dtLE (start_of_period ⟨2026, 10, 15, 14, 30, 0, 0⟩ "weekly")
      ⟨2026, 10, 15, 14, 30, 0, 0⟩ :=
  ⟨by decide,
   (C2_start_of_period_window ⟨2026, 10, 15, 14, 30, 0, 0⟩ (by decide) "weekly"
      (by decide)).2.2.2.2.2.1 rfl,
   (C2_start_of_period_window ⟨2026, 10, 15, 14, 30, 0, 0⟩ (by decide) "weekly"
      (by decide)).2.2.2.2.1⟩

-- Record-store data model: raw documents as the Python code reads them
-- (`dict.get` with defaults), monetary floats modelled as rationals.

/-- A raw transaction document (fields may be missing). -/
structure TxnRec where
  amount : Option Rat
  description : Option String
  category : Option String
  kind : Option String
  account_id : Option String
  date : Option PyDateTime
  recurring : Option Bool
deriving DecidableEq

/-- A raw account document. -/
structure AccountRec where
  name : Option String
  type : Option String
  starting_balance : Option Rat
  icon : Option String
deriving DecidableEq

/-- A raw goal document. -/
structure GoalRec where
  name : Option String
  target_amount : Option Rat
  current_amount : Option Rat
deriving DecidableEq

/-- A raw debt document. -/
structure DebtRec where
  name : Option String
  balance : Option Rat
  interest_rate : Option Rat
  minimum_payment : Option Rat
deriving DecidableEq

/-- A raw budget-category document. -/
structure BudgetRec where
  name : Option String
  monthly_budget : Option Rat
deriving DecidableEq

/-- Structured content of a notification message (the f-string payloads). -/
inductive Msg where
  | budgetPct (name : Option String) (pct : Int)
  | bill (name : Option String) (amount : Rat)
  | goalReached (name : Option String)
  | goalSeventyFive (name : Option String)
  | goalHalfway (name : Option String)
deriving DecidableEq

/-- A notification record (stored or computed). -/
structure Notification where
  kind : String
  message : Msg
  date : PyDateTime
deriving DecidableEq

/-- The record store: one list per collection, in insertion order. -/
structure Store where
  transactions : List TxnRec
  accounts : List AccountRec
  goals : List GoalRec
  debts : List DebtRec
  budgets : List BudgetRec
  notifications : List Notification
deriving DecidableEq

-- Helpers shared by the aggregation code

/-- `t.get("amount", 0)`. -/
def getAmt (t : TxnRec) : Rat := t.amount.getD 0

/-- `t.get("category", "Other")`. -/
def catOrOther (t : TxnRec) : String := t.category.getD "Other"

/-- Sum of `f` over a list (Python `sum(...)`). -/
def sumBy {α : Type} (l : List α) (f : α → Rat) : Rat := (l.map f).sum

/-- Mongo filter `{"date": {"$gte": start}}`: documents without a date
field do not match. -/
def inWindow (start : PyDateTime) (t : TxnRec) : Bool :=
  match t.date with
  | some d => decide (dtLE start d)
  | none => false

/-- `t.get("kind") == k`. -/
def kindIs (k : String) (t : TxnRec) : Bool := t.kind == some k

/-- Python dict update `m[k] = m.get(k, 0) + v` on an association list
with distinct keys (first occurrence updated, new keys appended). -/
def upsert : List (String × Rat) → String → Rat → List (String × Rat)
  | [], k, v => [(k, v)]
  | p :: rest, k, v =>
      if p.1 = k then (p.1, p.2 + v) :: rest else p :: upsert rest k v

/-- Python `m.get(k, dflt)` on an association list. -/
def lookupD (m : List (String × Rat)) (k : String) (dflt : Rat) : Rat :=
  match m.find? (fun p => p.1 == k) with
  | some p => p.2
  | none => dflt

/-- The category-map accumulation step of the summary loop. -/
def catMapsStep (acc : List (String × Rat) × List (String × Rat)) (t : TxnRec) :
    List (String × Rat) × List (String × Rat) :=
  if t.kind = some "income" then (upsert acc.1 (catOrOther t) (getAmt t), acc.2)
  else if t.kind = some "expense" then (acc.1, upsert acc.2 (catOrOther t) (getAmt t))
  else acc

/-- `income_sources` and `expense_categories` built in one pass. -/
def catMaps (txs : List TxnRec) : List (String × Rat) × List (String × Rat) :=
  txs.foldl catMapsStep ([], [])

/-- The `by_cat` month-to-date grouping of `summary`. -/
def byCategory (txs : List TxnRec) : List (String × Rat) :=
  txs.foldl (fun m t => upsert m (catOrOther t) (getAmt t)) []

-- Seed data (`ensure_seed_data` and the default budgets of `list_budgets`)

/-- The demo accounts seeded into an empty account collection. -/
def seedAccounts : List AccountRec :=
  [⟨some "Checking", some "checking", some 2500, some "Wallet"⟩,
   ⟨some "Savings", some "savings", some 8000, some "PiggyBank"⟩,
   ⟨some "Credit Card", some "credit", some (-1200), some "CreditCard"⟩]

/-- The demo goals seeded into an empty goal collection. -/
def seedGoals : List GoalRec :=
  [⟨some "Emergency Fund", some 10000, some 4000⟩,
   ⟨some "Vacation", some 3000, some 1200⟩,
   ⟨some "New Car", some 20000, some 3500⟩]

/-- The demo debts seeded into an empty debt collection. -/
def seedDebts : List DebtRec :=
  [⟨some "Credit Card", some 1200, some 19.99, some 50⟩,
   ⟨some "Student Loan", some 8500, some 4.2, some 120⟩,
   ⟨some "Car Loan", some 5400, some 3.5, some 180⟩]

/-- The demo transactions seeded into an empty transaction collection
(dates relative to the sampled now). -/
def seedTxns (now : PyDateTime) : List TxnRec :=
  [⟨some 3200, some "Salary", some "Salary", some "income", none, some (subDays now 10), some false⟩,
   ⟨some 200, some "Freelance Gig", some "Freelance", some "income", none, some (subDays now 4), some false⟩,
   ⟨some 65, some "Groceries", some "Food", some "expense", none, some (subDays now 3), some false⟩,
   ⟨some 1200, some "Rent", some "Rent", some "expense", none, some (subDays now 15), some false⟩,
   ⟨some 35, some "Transport Card", some "Transport", some "expense", none, some (subDays now 2), some false⟩,
   ⟨some 300, some "Emergency Fund", some "Emergency Fund", some "savings", none, some (subDays now 1), some false⟩,
   ⟨some 150, some "Credit Card Payment", some "Credit Card", some "debt", none, some (subDays now 6), some false⟩]

/-- Embedding of `ensure_seed_data`: each empty seedable collection is
populated with demo data; nonempty collections are left alone. -/
def ensure_seed_data (now : PyDateTime) (st : Store) : Store :=
  { st with
    accounts := if st.accounts = [] then seedAccounts else st.accounts,
    goals := if st.goals = [] then seedGoals else st.goals,
    debts := if st.debts = [] then seedDebts else st.debts,
    transactions := if st.transactions = [] then seedTxns now else st.transactions }

/-- The default budget categories created by `list_budgets` when the
budget collection is empty. -/
def defaultBudgets : List BudgetRec :=
  [⟨some "Food", some 400⟩, ⟨some "Rent", some 1200⟩, ⟨some "Transport", some 150⟩,
   ⟨some "Shopping", some 250⟩, ⟨some "Entertainment", some 150⟩]

/-- Embedding of the `/api/budgets` handler: seeding plus the read. -/
def list_budgets (now : PyDateTime) (st : Store) : Store × List BudgetRec :=
  let s := ensure_seed_data now st
  let bs := if s.budgets = [] then defaultBudgets else s.budgets
  ({ s with budgets := bs }, bs)

/-- Embedding of the `/api/goals` handler. -/
def list_goals (now : PyDateTime) (st : Store) : Store × List GoalRec :=
  let s := ensure_seed_data now st
  (s, s.goals)

/-- Embedding of the `/api/debts` handler. -/
def list_debts (now : PyDateTime) (st : Store) : Store × List DebtRec :=
  let s := ensure_seed_data now st
  (s, s.debts)

/-- Embedding of the `/api/accounts` handler. -/
def list_accounts (now : PyDateTime) (st : Store) : Store × List AccountRec :=
  let s := ensure_seed_data now st
  (s, s.accounts)

-- The summary endpoint

/-- One `budget_usage` entry. -/
structure UsageEntry where
  name : Option String
  spent : Rat
  budget : Rat
deriving DecidableEq

/-- The metrics map of the summary report. -/
structure Metrics where
  net_worth : Rat
  cash_on_hand : Rat
  total_debt : Rat
  cash_flow : Rat
  income : Rat
  expenses : Rat
  savings : Rat
  debt_payments : Rat
deriving DecidableEq

/-- The summary report returned by `/api/summary`. -/
structure Report where
  timeframe : String
  metrics : Metrics
  income_sources : List (String × Rat)
  expense_categories : List (String × Rat)
  budget_usage : List UsageEntry
  goals : List GoalRec
  debts : List DebtRec
  accounts : List AccountRec
deriving DecidableEq

/-- Account types counted into `cash_on_hand`. -/
def isCashType (a : AccountRec) : Bool :=
  a.type == some "checking" || a.type == some "savings" || a.type == some "cash"

/-- The transactions fetched by `summary`: seeded store filtered by
`date >= start_of_period(now, tf)`. -/
def fetchedTxs (st : Store) (now : PyDateTime) (tf : String) : List TxnRec :=
  (ensure_seed_data now st).transactions.filter (inWindow (start_of_period now tf))

/-- The `month_expenses` fetch of `summary`: expense transactions from the
first of the calendar month containing `now`. -/
def monthExpenses (st : Store) (now : PyDateTime) : List TxnRec :=
  st.transactions.filter
    (fun t => inWindow (start_of_period now "monthly") t && kindIs "expense" t)

/-- One `budget_usage` entry as built by `summary` from a budget record. -/
def usageOf (by_cat : List (String × Rat)) (b : BudgetRec) : UsageEntry :=
  { name := b.name,
    spent := match b.name with
      | some nm => lookupD by_cat nm 0
      | none => 0,
    budget := b.monthly_budget.getD 0 }

/-- Embedding of the `/api/summary` handler: returns the store after the
seed-on-read side effects together with the report. -/
def summary (st0 : Store) (now : PyDateTime) (tf : String) : Store × Report :=
  let st1 := ensure_seed_data now st0
  let txs := fetchedTxs st0 now tf
  let income := sumBy (txs.filter (kindIs "income")) getAmt
  let expenses := sumBy (txs.filter (kindIs "expense")) getAmt
  let savings := sumBy (txs.filter (kindIs "savings")) getAmt
  let debt_payments := sumBy (txs.filter (kindIs "debt")) getAmt
  let cash_flow := income - expenses
  let maps := catMaps txs
  let bres := list_budgets now st1
  let st2 := bres.1
  let budgets := bres.2
  let budget_usage :=
    if tf = "monthly" ∨ tf = "weekly" ∨ tf = "daily" then
      budgets.map (usageOf (byCategory (monthExpenses st2 now)))
    else []
  let gres := list_goals now st2
  let goals := gres.2
  let dres := list_debts now gres.1
  let debts := dres.2
  let ares := list_accounts now dres.1
  let accounts := ares.2
  let cash_on_hand := sumBy (accounts.filter isCashType) (fun a => a.starting_balance.getD 0)
  let total_debt := sumBy debts (fun d => d.balance.getD 0)
  let total_goals := sumBy goals (fun g => g.current_amount.getD 0)
  let net_worth := cash_on_hand + total_goals - total_debt
  (ares.1,
   { timeframe := tf,
     metrics := { net_worth := net_worth, cash_on_hand := cash_on_hand,
                  total_debt := total_debt, cash_flow := cash_flow, income := income,
                  expenses := expenses, savings := savings, debt_payments := debt_payments },
     income_sources := maps.1,
     expense_categories := maps.2,
     budget_usage := budget_usage,
     goals := goals, debts := debts, accounts := accounts })

-- The notifications endpoint

/-- Python `int(...)`: truncation toward zero on a rational. -/
def pyInt (q : Rat) : Int := if q < 0 then -((-q).floor) else q.floor

/-- The budget-alert loop: `usage_by_name` is a dict comprehension keyed by
entry name (later entries overwrite earlier ones), looked up per budget. -/
def budgetNotifs (budgets : List BudgetRec) (usage : List UsageEntry)
    (now : PyDateTime) : List Notification :=
  budgets.filterMap (fun b =>
    match (usage.reverse).find? (fun e => decide (e.name = b.name)) with
    | none => none
    | some info =>
        if 0 < info.budget ∧ (0.9 : Rat) * info.budget ≤ info.spent then
          some ⟨"budget", Msg.budgetPct b.name (pyInt (info.spent / info.budget * 100)), now⟩
        else none)

/-- The upcoming-bill loop over the report's debts. -/
def billNotifs (debts : List DebtRec) (now : PyDateTime) : List Notification :=
  debts.filterMap (fun d =>
    if 0 < d.minimum_payment.getD 0 then
      some ⟨"bill", Msg.bill d.name (d.minimum_payment.getD 0), now⟩
    else none)

/-- Python's binary `max` (the first argument on ties). -/
def pyMax (a b : Rat) : Rat := if a < b then b else a

/-- The goal-milestone rule for one goal. -/
def goalNotif (now : PyDateTime) (g : GoalRec) : List Notification :=
  let target := pyMax 1 (g.target_amount.getD 0)
  let current := g.current_amount.getD 0
  let pct := current / target
  if 1 ≤ pct then [⟨"goal", Msg.goalReached g.name, now⟩]
  else if (0.75 : Rat) ≤ pct then [⟨"goal", Msg.goalSeventyFive g.name, now⟩]
  else if (0.5 : Rat) ≤ pct then [⟨"goal", Msg.goalHalfway g.name, now⟩]
  else []

/-- Embedding of the `/api/notifications` handler: stored notifications
first, then the computed budget, bill and goal notifications. -/
def get_notifications (st0 : Store) (now : PyDateTime) : Store × List Notification :=
  let st1 := ensure_seed_data now st0
  let bres := list_budgets now st1
  let budgets := bres.2
  let sres := summary bres.1 now "monthly"
  let st := sres.1
  let ms := sres.2
  let notifs := budgetNotifs budgets ms.budget_usage now
    ++ billNotifs ms.debts now
    ++ ms.goals.flatMap (goalNotif now)
  (st, st.notifications ++ notifs)

-- Structural identities of the summary pipeline

theorem summary_budget_usage (st : Store) (now : PyDateTime) (tf : String) :
    (summary st now tf).2.budget_usage
      = (if tf = "monthly" ∨ tf = "weekly" ∨ tf = "daily" then
          ((list_budgets now (ensure_seed_data now st)).2).map
            (usageOf (byCategory
              (monthExpenses (list_budgets now (ensure_seed_data now st)).1 now)))
        else []) := rfl

theorem summary_store_budgets (st : Store) (now : PyDateTime) (tf : String) :
    (summary st now tf).1.budgets = (list_budgets now (ensure_seed_data now st)).2 := rfl

/-- C1: in every summary report, `net_worth` equals (sum of
`starting_balance` over accounts of type checking/savings/cash) plus the
sum of goal `current_amount` minus the sum of debt `balance`, and agrees
exactly with `cash_on_hand + total_goals - total_debt` recomputed from the
reported metrics and goal snapshot. -/
theorem C1_net_worth_formula (st : Store) (now : PyDateTime) (tf : String) :
    (summary st now tf).2.metrics.net_worth
        = sumBy (((summary st now tf).2.accounts).filter isCashType)
            (fun a => a.starting_balance.getD 0)
          + sumBy ((summary st now tf).2.goals) (fun g => g.current_amount.getD 0)
          - sumBy ((summary st now tf).2.debts) (fun d => d.balance.getD 0)
      ∧ (summary st now tf).2.metrics.net_worth
          = (summary st now tf).2.metrics.cash_on_hand
            + sumBy ((summary st now tf).2.goals) (fun g => g.current_amount.getD 0)
            - (summary st now tf).2.metrics.total_debt
      ∧ (∀ a : AccountRec, a.type = some "credit" ∨ a.type = some "investment" →
            isCashType a = false) :=
  ⟨rfl, rfl, by
    intro a ha
    rcases ha with h | h <;> simp [isCashType, h]⟩

/-- Witness for C1's account-type clause at a concrete credit account. -/
theorem C1_net_worth_formula_witness :
    isCashType ⟨some "Credit Card", some "credit", some (-1200), none⟩ = false :=
  (C1_net_worth_formula ⟨[], [], [], [], [], []⟩ ⟨2026, 10, 12, 0, 0, 0, 0⟩
    "monthly").2.2 ⟨some "Credit Card", some "credit", some (-1200), none⟩ (Or.inl rfl)

/-- C6: `budget_usage` has exactly one entry per budget-category record
when the timeframe is daily, weekly or monthly, and is empty for yearly. -/
theorem C6_budget_usage_length (st : Store) (now : PyDateTime) (tf : String) :
    ((tf = "daily" ∨ tf = "weekly" ∨ tf = "monthly") →
        ((summary st now tf).2.budget_usage).length
          = ((summary st now tf).1.budgets).length)
    ∧ (tf = "yearly" → (summary st now tf).2.budget_usage = []) := by
  constructor
  · intro h
    rw [summary_budget_usage, summary_store_budgets,
      if_pos (show tf = "monthly" ∨ tf = "weekly" ∨ tf = "daily" by tauto)]
    exact List.length_map _ _
  · intro h
    subst h
    rw [summary_budget_usage, if_neg (by decide)]

/-- Witness for C6 on a concrete store: five default budgets are seeded,
giving five budget-usage entries for the monthly timeframe. -/
theorem C6_budget_usage_length_witness :
    ((summary ⟨[], [], [], [], [], []⟩ ⟨2026, 10, 12, 9, 0, 0, 0⟩
        "monthly").2.budget_usage).length
      = ((summary ⟨[], [], [], [], [], []⟩ ⟨2026, 10, 12, 9, 0, 0, 0⟩
        "monthly").1.budgets).length :=
  (C6_budget_usage_length ⟨[], [], [], [], [], []⟩ ⟨2026, 10, 12, 9, 0, 0, 0⟩
    "monthly").1 (Or.inr (Or.inr rfl))

-- Association-list lemmas for the category maps

/-- Sum of the values of a category map. -/
def sumValues (m : List (String × Rat)) : Rat := sumBy m (fun p => p.2)

theorem sumValues_cons (p : String × Rat) (l : List (String × Rat)) :
    sumValues (p :: l) = p.2 + sumValues l := by
  simp [sumValues, sumBy]

theorem sumValues_upsert (m : List (String × Rat)) (k : String) (v : Rat) :
    sumValues (upsert m k v) = sumValues m + v := by
  induction m with
  | nil => simp [upsert, sumValues, sumBy]
  | cons p rest ih =>
      unfold upsert
      split_ifs with h
      · rw [sumValues_cons, sumValues_cons]
        ring
      · rw [sumValues_cons, ih, sumValues_cons]
        ring

theorem lookupD_nil (k : String) (dflt : Rat) : lookupD [] k dflt = dflt := rfl

theorem lookupD_cons (p : String × Rat) (l : List (String × Rat)) (k : String)
    (dflt : Rat) :
    lookupD (p :: l) k dflt = if p.1 = k then p.2 else lookupD l k dflt := by
  unfold lookupD
  by_cases h : p.1 = k
  · rw [List.find?_cons_of_pos _ (by simp [h])]
    simp [h]
  · rw [List.find?_cons_of_neg _ (by simp [h])]
    simp [h]

theorem upsert_cons (p : String × Rat) (rest : List (String × Rat)) (k : String)
    (v : Rat) :
    upsert (p :: rest) k v
      = if p.1 = k then (p.1, p.2 + v) :: rest else p :: upsert rest k v := rfl

theorem lookupD_upsert (m : List (String × Rat)) (k k' : String) (v : Rat) :
    lookupD (upsert m k v) k' 0 = lookupD m k' 0 + (if k = k' then v else 0) := by
  induction m with
  | nil =>
      unfold upsert
      rw [lookupD_cons, lookupD_nil]
      dsimp only
      split_ifs <;> simp_all
  | cons p rest ih =>
      by_cases h : p.1 = k
      · rw [upsert_cons, if_pos h, lookupD_cons, lookupD_cons]
        dsimp only
        by_cases h2 : p.1 = k'
        · rw [if_pos h2, if_pos h2, if_pos (show k = k' from h.symm.trans h2)]
        · rw [if_neg h2, if_neg h2, if_neg (fun hh => h2 (h.trans hh))]
          ring
      · rw [upsert_cons, if_neg h, lookupD_cons, lookupD_cons, ih]
        by_cases h2 : p.1 = k'
        · rw [if_pos h2, if_pos h2, if_neg (fun hh => h (h2.trans hh.symm))]
          ring
        · rw [if_neg h2, if_neg h2]

theorem lookupD_byCategory_aux (l : List TxnRec) (m : List (String × Rat)) (nm : String) :
    lookupD (l.foldl (fun m t => upsert m (catOrOther t) (getAmt t)) m) nm 0
      = lookupD m nm 0 + sumBy (l.filter (fun t => catOrOther t == nm)) getAmt := by
  induction l generalizing m with
  | nil => simp [sumBy]
  | cons t l ih =>
      rw [List.foldl_cons, ih, lookupD_upsert, List.filter_cons]
      by_cases h : catOrOther t = nm
      · simp only [h, beq_self_eq_true, if_true]
        rw [show sumBy (t :: List.filter (fun t => catOrOther t == nm) l) getAmt
            = getAmt t + sumBy (List.filter (fun t => catOrOther t == nm) l) getAmt by
          simp [sumBy]]
        ring
      · simp [h]

theorem lookupD_byCategory (l : List TxnRec) (nm : String) :
    lookupD (byCategory l) nm 0
      = sumBy (l.filter (fun t => catOrOther t == nm)) getAmt := by
  unfold byCategory
  rw [lookupD_byCategory_aux, lookupD_nil]
  ring

theorem sumBy_cons {α : Type} (a : α) (l : List α) (f : α → Rat) :
    sumBy (a :: l) f = f a + sumBy l f := by
  simp [sumBy]

theorem kindIs_true_iff (k : String) (t : TxnRec) :
    kindIs k t = true ↔ t.kind = some k := by
  simp [kindIs]

theorem kindIs_false_of_ne (k : String) (t : TxnRec) (h : ¬ t.kind = some k) :
    kindIs k t = false := by
  simp [kindIs, h]

theorem catMaps_sums_aux (txs : List TxnRec)
    (acc : List (String × Rat) × List (String × Rat)) :
    sumValues (txs.foldl catMapsStep acc).1
        = sumValues acc.1 + sumBy (txs.filter (kindIs "income")) getAmt
    ∧ sumValues (txs.foldl catMapsStep acc).2
        = sumValues acc.2 + sumBy (txs.filter (kindIs "expense")) getAmt := by
  induction txs generalizing acc with
  | nil => simp [sumBy]
  | cons t l ih =>
      rw [List.foldl_cons, List.filter_cons, List.filter_cons]
      by_cases h : t.kind = some "income"
      · have hki : kindIs "income" t = true := (kindIs_true_iff _ _).mpr h
        have hke : kindIs "expense" t = false :=
          kindIs_false_of_ne _ _ (by rw [h]; decide)
        have hstep : catMapsStep acc t
            = (upsert acc.1 (catOrOther t) (getAmt t), acc.2) := by
          unfold catMapsStep
          rw [if_pos h]
        rw [hstep, hki, hke]
        obtain ⟨ih1, ih2⟩ := ih (upsert acc.1 (catOrOther t) (getAmt t), acc.2)
        constructor
        · rw [ih1]
          dsimp only
          rw [sumValues_upsert]
          simp [sumBy_cons]
          ring
        · rw [ih2]
          dsimp only
          simp
      · by_cases h2 : t.kind = some "expense"
        · have hki : kindIs "income" t = false := kindIs_false_of_ne _ _ h
          have hke : kindIs "expense" t = true := (kindIs_true_iff _ _).mpr h2
          have hstep : catMapsStep acc t
              = (acc.1, upsert acc.2 (catOrOther t) (getAmt t)) := by
            unfold catMapsStep
            rw [if_neg h, if_pos h2]
          rw [hstep, hki, hke]
          obtain ⟨ih1, ih2⟩ := ih (acc.1, upsert acc.2 (catOrOther t) (getAmt t))
          constructor
          · rw [ih1]
            dsimp only
            simp
          · rw [ih2]
            dsimp only
            rw [sumValues_upsert]
            simp [sumBy_cons]
            ring
        · have hki : kindIs "income" t = false := kindIs_false_of_ne _ _ h
          have hke : kindIs "expense" t = false := kindIs_false_of_ne _ _ h2
          have hstep : catMapsStep acc t = acc := by
            unfold catMapsStep
            rw [if_neg h, if_neg h2]
          rw [hstep, hki, hke]
          exact ih acc

theorem catMaps_sums (txs : List TxnRec) :
    sumValues (catMaps txs).1 = sumBy (txs.filter (kindIs "income")) getAmt
    ∧ sumValues (catMaps txs).2 = sumBy (txs.filter (kindIs "expense")) getAmt := by
  have h := catMaps_sums_aux txs ([], [])
  unfold catMaps
  constructor
  · rw [h.1]
    simp [sumValues, sumBy]
  · rw [h.2]
    simp [sumValues, sumBy]

/-- C10: the per-category breakdowns are exact partitions of the kind
sums: `income_sources` values sum to the `income` metric and
`expense_categories` values sum to the `expenses` metric. -/
theorem C10_category_breakdown_partition (st : Store) (now : PyDateTime) (tf : String) :
    sumValues ((summary st now tf).2.income_sources)
        = (summary st now tf).2.metrics.income
    ∧ sumValues ((summary st now tf).2.expense_categories)
        = (summary st now tf).2.metrics.expenses := by
  constructor
  · show sumValues (catMaps (fetchedTxs st now tf)).1
      = sumBy ((fetchedTxs st now tf).filter (kindIs "income")) getAmt
    exact (catMaps_sums _).1
  · show sumValues (catMaps (fetchedTxs st now tf)).2
      = sumBy ((fetchedTxs st now tf).filter (kindIs "expense")) getAmt
    exact (catMaps_sums _).2

-- C5: month-anchored budget spend

/-- Sum of expense amounts inside the window of `tf`, in a given budget
category (the `by_cat` aggregation restricted to one name). -/
def windowSpent (st : Store) (now : PyDateTime) (tf : String)
    (name : Option String) : Rat :=
  match name with
  | some nm => sumBy (st.transactions.filter
      (fun t => catOrOther t == nm
        && (inWindow (start_of_period now tf) t && kindIs "expense" t))) getAmt
  | none => 0

/-- Month-to-date expenses in a given budget category. -/
def monthSpent (st : Store) (now : PyDateTime) (name : Option String) : Rat :=
  windowSpent st now "monthly" name

theorem usageOf_spent (st : Store) (now : PyDateTime) (b : BudgetRec) :
    (usageOf (byCategory (monthExpenses st now)) b).spent
      = monthSpent st now b.name := by
  unfold usageOf monthSpent windowSpent monthExpenses
  cases hb : b.name with
  | none => rfl
  | some nm =>
      dsimp only
      rw [lookupD_byCategory, List.filter_filter]

/-- C5: every `budget_usage` entry's spent value is the month-to-date
expense total of its category, anchored to the calendar month containing
`now` regardless of the requested timeframe; the whole `budget_usage`
list coincides with the one computed for the monthly timeframe; and for a
daily request, spent can strictly exceed the spend inside the daily
window. -/
theorem C5_month_anchored_spend (st : Store) (now : PyDateTime) (tf : String)
    (htf : tf = "daily" ∨ tf = "weekly" ∨ tf = "monthly") :
    (∀ e ∈ (summary st now tf).2.budget_usage,
        e.spent = monthSpent (list_budgets now (ensure_seed_data now st)).1 now e.name)
    ∧ (summary st now tf).2.budget_usage = (summary st now "monthly").2.budget_usage
    ∧ (∃ st' : Store, ∃ now' : PyDateTime,
        ∃ e ∈ (summary st' now' "daily").2.budget_usage,
          windowSpent (list_budgets now' (ensure_seed_data now' st')).1 now' "daily" e.name
            < e.spent) := by
  refine ⟨?_, ?_, ?_⟩
  · intro e he
    rw [summary_budget_usage,
      if_pos (show tf = "monthly" ∨ tf = "weekly" ∨ tf = "daily" by tauto)] at he
    obtain ⟨b, hb, rfl⟩ := List.mem_map.mp he
    exact usageOf_spent _ now b
  · rw [summary_budget_usage, summary_budget_usage,
      if_pos (show tf = "monthly" ∨ tf = "weekly" ∨ tf = "daily" by tauto),
      if_pos (show "monthly" = "monthly" ∨ "monthly" = "weekly" ∨ "monthly" = "daily"
        from Or.inl rfl)]
  · exact ⟨⟨[⟨some 50, none, some "Food", some "expense", none,
        some ⟨2026, 10, 1, 9, 0, 0, 0⟩, some false⟩],
      [⟨some "A", some "checking", some 10, none⟩],
      [⟨some "G", some 100, some 10⟩],
      [⟨some "D", some 10, some 1, some 0⟩],
      [⟨some "Food", some 400⟩], []⟩,
      ⟨2026, 10, 12, 14, 30, 0, 0⟩, by decide⟩

/-- Witness for C5 at a concrete store and the daily timeframe. -/
theorem C5_month_anchored_spend_witness :
    ("daily" = "daily" ∨ "daily" = "weekly" ∨ "daily" = "monthly")
    ∧ (summary ⟨[], [], [], [], [], []⟩ ⟨2026, 10, 12, 14, 30, 0, 0⟩
          "daily").2.budget_usage
        = (summary ⟨[], [], [], [], [], []⟩ ⟨2026, 10, 12, 14, 30, 0, 0⟩
          "monthly").2.budget_usage :=
  ⟨Or.inl rfl,
   (C5_month_anchored_spend ⟨[], [], [], [], [], []⟩ ⟨2026, 10, 12, 14, 30, 0, 0⟩
      "daily" (Or.inl rfl)).2.1⟩

-- C3: goal milestone rule

/-- C3: the goal rule divides by `max(1, target_amount)` (never zero, even
for a missing or zero target), and emits at most one milestone per goal,
with reached taking precedence over 75%, which takes precedence over
halfway; below 50% nothing fires. -/
theorem C3_goal_milestone_precedence (now : PyDateTime) (g : GoalRec) :
    (1 : Rat) ≤ pyMax 1 (g.target_amount.getD 0)
    ∧ (goalNotif now g).length ≤ 1
    ∧ (1 ≤ g.current_amount.getD 0 / pyMax 1 (g.target_amount.getD 0) →
        goalNotif now g = [⟨"goal", Msg.goalReached g.name, now⟩])
    ∧ (g.current_amount.getD 0 / pyMax 1 (g.target_amount.getD 0) < 1 →
       (0.75 : Rat) ≤ g.current_amount.getD 0 / pyMax 1 (g.target_amount.getD 0) →
        goalNotif now g = [⟨"goal", Msg.goalSeventyFive g.name, now⟩])
    ∧ (g.current_amount.getD 0 / pyMax 1 (g.target_amount.getD 0) < 0.75 →
       (0.5 : Rat) ≤ g.current_amount.getD 0 / pyMax 1 (g.target_amount.getD 0) →
        goalNotif now g = [⟨"goal", Msg.goalHalfway g.name, now⟩])
    ∧ (g.current_amount.getD 0 / pyMax 1 (g.target_amount.getD 0) < 0.5 →
        goalNotif now g = []) := by
  simp only [goalNotif]
  refine ⟨?_, ?_, ?_, ?_, ?_, ?_⟩
  · unfold pyMax
    split_ifs with h
    · linarith
    · exact le_refl _
  · split_ifs <;> simp
  · intro ha
    rw [if_pos ha]
  · intro ha hb
    rw [if_neg (not_le.mpr ha), if_pos hb]
  · intro ha hb
    rw [if_neg (not_le.mpr (lt_trans ha (by norm_num))),
      if_neg (not_le.mpr ha), if_pos hb]
  · intro ha
    rw [if_neg (not_le.mpr (lt_trans ha (by norm_num))),
      if_neg (not_le.mpr (lt_trans ha (by norm_num))),
      if_neg (not_le.mpr ha)]

/-- Witness for C3: the spec scenario goal (target 10000, current 7600,
pct 0.76) emits exactly the 75%-funded notification. -/
theorem C3_goal_milestone_precedence_witness :
    goalNotif ⟨2026, 10, 12, 9, 0, 0, 0⟩ ⟨some "Emergency", some 10000, some 7600⟩
      = [⟨"goal", Msg.goalSeventyFive (some "Emergency"), ⟨2026, 10, 12, 9, 0, 0, 0⟩⟩] :=
  (C3_goal_milestone_precedence ⟨2026, 10, 12, 9, 0, 0, 0⟩
      ⟨some "Emergency", some 10000, some 7600⟩).2.2.2.1
    (by norm_num [pyMax]) (by norm_num [pyMax])

-- C7: every transaction contributes to at most one kind sum; unmatched
-- kinds contribute to none

/-- How many of the four kind sums a transaction's amount is added to. -/
def kindSumCount (t : TxnRec) : Nat :=
  (if t.kind = some "income" then 1 else 0)
  + (if t.kind = some "expense" then 1 else 0)
  + (if t.kind = some "savings" then 1 else 0)
  + (if t.kind = some "debt" then 1 else 0)

/-- C7 counterexample: a fetched transaction with an unrecognized kind
(`"transfer"`) and amount 5 contributes to none of the four kind sums. -/
theorem C7_unrecognized_kind_counterexample :
    (⟨some 5, some "weird", some "Misc", some "transfer", none,
        some ⟨2026, 10, 10, 9, 0, 0, 0⟩, some false⟩ : TxnRec)
      ∈ fetchedTxs
        ⟨[⟨some 5, some "weird", some "Misc", some "transfer", none,
            some ⟨2026, 10, 10, 9, 0, 0, 0⟩, some false⟩],
         [⟨some "A", some "checking", some 10, none⟩],
         [⟨some "G", some 100, some 10⟩],
         [⟨some "D", some 10, some 1, some 0⟩],
         [⟨some "Food", some 400⟩], []⟩
        ⟨2026, 10, 12, 14, 30, 0, 0⟩ "monthly"
    ∧ kindSumCount ⟨some 5, some "weird", some "Misc", some "transfer", none,
        some ⟨2026, 10, 10, 9, 0, 0, 0⟩, some false⟩ = 0
    ∧ getAmt ⟨some 5, some "weird", some "Misc", some "transfer", none,
        some ⟨2026, 10, 10, 9, 0, 0, 0⟩, some false⟩ = 5
    ∧ (summary
        ⟨[⟨some 5, some "weird", some "Misc", some "transfer", none,
            some ⟨2026, 10, 10, 9, 0, 0, 0⟩, some false⟩],
         [⟨some "A", some "checking", some 10, none⟩],
         [⟨some "G", some 100, some 10⟩],
         [⟨some "D", some 10, some 1, some 0⟩],
         [⟨some "Food", some 400⟩], []⟩
        ⟨2026, 10, 12, 14, 30, 0, 0⟩ "monthly").2.metrics.income = 0
    ∧ (summary
        ⟨[⟨some 5, some "weird", some "Misc", some "transfer", none,
            some ⟨2026, 10, 10, 9, 0, 0, 0⟩, some false⟩],
         [⟨some "A", some "checking", some 10, none⟩],
         [⟨some "G", some 100, some 10⟩],
         [⟨some "D", some 10, some 1, some 0⟩],
         [⟨some "Food", some 400⟩], []⟩
        ⟨2026, 10, 12, 14, 30, 0, 0⟩ "monthly").2.metrics.expenses = 0
    ∧ (summary
        ⟨[⟨some 5, some "weird", some "Misc", some "transfer", none,
            some ⟨2026, 10, 10, 9, 0, 0, 0⟩, some false⟩],
         [⟨some "A", some "checking", some 10, none⟩],
         [⟨some "G", some 100, some 10⟩],
         [⟨some "D", some 10, some 1, some 0⟩],
         [⟨some "Food", some 400⟩], []⟩
        ⟨2026, 10, 12, 14, 30, 0, 0⟩ "monthly").2.metrics.savings = 0
    ∧ (summary
        ⟨[⟨some 5, some "weird", some "Misc", some "transfer", none,
            some ⟨2026, 10, 10, 9, 0, 0, 0⟩, some false⟩],
         [⟨some "A", some "checking", some 10, none⟩],
         [⟨some "G", some 100, some 10⟩],
         [⟨some "D", some 10, some 1, some 0⟩],
         [⟨some "Food", some 400⟩], []⟩
        ⟨2026, 10, 12, 14, 30, 0, 0⟩ "monthly").2.metrics.debt_payments = 0 := by
  decide

/-- C7 amended: each kind sum is the sum of amounts over fetched
transactions carrying exactly that kind label; a transaction contributes
to exactly one sum when its kind is one of the four labels, and to none
when the kind is missing or unrecognized. -/
theorem C7_kind_sums_partition (st : Store) (now : PyDateTime) (tf : String) :
    (summary st now tf).2.metrics.income
        = sumBy ((fetchedTxs st now tf).filter (kindIs "income")) getAmt
    ∧ (summary st now tf).2.metrics.expenses
        = sumBy ((fetchedTxs st now tf).filter (kindIs "expense")) getAmt
    ∧ (summary st now tf).2.metrics.savings
        = sumBy ((fetchedTxs st now tf).filter (kindIs "savings")) getAmt
    ∧ (summary st now tf).2.metrics.debt_payments
        = sumBy ((fetchedTxs st now tf).filter (kindIs "debt")) getAmt
    ∧ (∀ t : TxnRec, kindSumCount t ≤ 1
        ∧ (kindSumCount t = 1 ↔ (t.kind = some "income" ∨ t.kind = some "expense"
            ∨ t.kind = some "savings" ∨ t.kind = some "debt"))) := by
  refine ⟨rfl, rfl, rfl, rfl, ?_⟩
  intro t
  unfold kindSumCount
  split_ifs <;> simp_all

-- Seed-on-read stability: seeding is a no-op on nonempty collections and
-- idempotent in general

theorem ensure_nonempty (now : PyDateTime) (st : Store) :
    (ensure_seed_data now st).accounts ≠ [] ∧ (ensure_seed_data now st).goals ≠ []
    ∧ (ensure_seed_data now st).debts ≠ []
    ∧ (ensure_seed_data now st).transactions ≠ [] := by
  unfold ensure_seed_data
  refine ⟨?_, ?_, ?_, ?_⟩
  all_goals (
    dsimp only
    split_ifs <;>
      first
        | assumption
        | simp [seedAccounts, seedGoals, seedDebts, seedTxns])

theorem ensure_id_of_nonempty (now : PyDateTime) (st : Store)
    (ha : st.accounts ≠ []) (hg : st.goals ≠ []) (hd : st.debts ≠ [])
    (ht : st.transactions ≠ []) :
    ensure_seed_data now st = st := by
  obtain ⟨txs, accs, gls, dbts, bs, ns⟩ := st
  unfold ensure_seed_data
  dsimp only at *
  rw [if_neg ha, if_neg hg, if_neg hd, if_neg ht]

theorem ensure_idem (now : PyDateTime) (st : Store) :
    ensure_seed_data now (ensure_seed_data now st) = ensure_seed_data now st := by
  have h := ensure_nonempty now st
  exact ensure_id_of_nonempty now _ h.1 h.2.1 h.2.2.1 h.2.2.2

theorem list_budgets_snd_ne_nil (now : PyDateTime) (st : Store) :
    (list_budgets now st).2 ≠ [] := by
  unfold list_budgets
  dsimp only
  split_ifs with h
  · simp [defaultBudgets]
  · exact h

/-- The fully seeded store reached inside `summary`/`get_notifications`. -/
def seededStore (now : PyDateTime) (st : Store) : Store :=
  (list_budgets now (ensure_seed_data now st)).1

theorem ensure_seededStore (now : PyDateTime) (st : Store) :
    ensure_seed_data now (seededStore now st) = seededStore now st := by
  unfold seededStore list_budgets
  dsimp only
  rw [show ensure_seed_data now
      { ensure_seed_data now (ensure_seed_data now st) with
        budgets := if (ensure_seed_data now (ensure_seed_data now st)).budgets = []
          then defaultBudgets else (ensure_seed_data now (ensure_seed_data now st)).budgets }
    = { ensure_seed_data now (ensure_seed_data now (ensure_seed_data now st)) with
        budgets := if (ensure_seed_data now (ensure_seed_data now st)).budgets = []
          then defaultBudgets else (ensure_seed_data now (ensure_seed_data now st)).budgets }
    from rfl]
  rw [ensure_idem, ensure_idem]

theorem seededStore_budgets_ne_nil (now : PyDateTime) (st : Store) :
    (seededStore now st).budgets ≠ [] := by
  unfold seededStore
  exact list_budgets_snd_ne_nil now (ensure_seed_data now st)

theorem list_budgets_of_seeded (now : PyDateTime) (st : Store) :
    list_budgets now (seededStore now st)
      = (seededStore now st, (seededStore now st).budgets) := by
  unfold list_budgets
  rw [ensure_seededStore]
  dsimp only
  rw [if_neg (seededStore_budgets_ne_nil now st)]

theorem summary_fst (st : Store) (now : PyDateTime) (tf : String) :
    (summary st now tf).1 = seededStore now st := by
  show ensure_seed_data now (ensure_seed_data now (ensure_seed_data now
      (list_budgets now (ensure_seed_data now st)).1))
    = seededStore now st
  show ensure_seed_data now (ensure_seed_data now (ensure_seed_data now
      (seededStore now st))) = seededStore now st
  rw [ensure_seededStore, ensure_seededStore, ensure_seededStore]

theorem summary_snapshots (st : Store) (now : PyDateTime) (tf : String) :
    (summary st now tf).2.goals = (seededStore now st).goals
    ∧ (summary st now tf).2.debts = (seededStore now st).debts
    ∧ (summary st now tf).2.accounts = (seededStore now st).accounts := by
  refine ⟨?_, ?_, ?_⟩
  · show (ensure_seed_data now (seededStore now st)).goals = _
    rw [ensure_seededStore]
  · show (ensure_seed_data now (ensure_seed_data now (seededStore now st))).debts = _
    rw [ensure_seededStore, ensure_seededStore]
  · show (ensure_seed_data now (ensure_seed_data now (ensure_seed_data now
        (seededStore now st)))).accounts = _
    rw [ensure_seededStore, ensure_seededStore, ensure_seededStore]

-- C8: seed-on-read side effects

/-- C8 amended: when every seedable collection is nonempty, `summary`
leaves the store exactly as it found it. -/
theorem C8_no_writes_when_nonempty (st : Store) (now : PyDateTime) (tf : String)
    (ha : st.accounts ≠ []) (hg : st.goals ≠ []) (hd : st.debts ≠ [])
    (ht : st.transactions ≠ []) (hb : st.budgets ≠ []) :
    (summary st now tf).1 = st := by
  rw [summary_fst]
  unfold seededStore
  rw [ensure_id_of_nonempty now st ha hg hd ht]
  unfold list_budgets
  rw [ensure_id_of_nonempty now st ha hg hd ht]
  dsimp only
  rw [if_neg hb]

/-- The empty store. -/
def emptyStore : Store := ⟨[], [], [], [], [], []⟩

/-- A store with every collection nonempty (no seeding is triggered). -/
def demoStore : Store :=
  ⟨[⟨some 10, none, some "Food", some "expense", none,
      some ⟨2026, 10, 2, 8, 0, 0, 0⟩, some false⟩],
   [⟨some "A", some "checking", some 100, none⟩],
   [⟨some "G", some 200, some 10⟩],
   [⟨some "D", some 50, some 1, some 5⟩],
   [⟨some "Food", some 100⟩],
   []⟩

/-- C8 counterexample: on a store with empty collections, a summary call
writes demo records (accounts go from 0 to 3). -/
theorem C8_seed_on_read_counterexample :
    (summary emptyStore ⟨2026, 10, 12, 9, 0, 0, 0⟩ "monthly").1 ≠ emptyStore
    ∧ ((summary emptyStore ⟨2026, 10, 12, 9, 0, 0, 0⟩ "monthly").1.accounts).length = 3
    ∧ emptyStore.accounts.length = 0 := by
  refine ⟨by decide, by decide, rfl⟩

/-- Witness for C8 on a concrete fully-populated store. -/
theorem C8_no_writes_when_nonempty_witness :
    (demoStore.accounts ≠ [] ∧ demoStore.goals ≠ [] ∧ demoStore.debts ≠ []
      ∧ demoStore.transactions ≠ [] ∧ demoStore.budgets ≠ [])
    ∧ (summary demoStore ⟨2026, 10, 12, 9, 0, 0, 0⟩ "monthly").1 = demoStore :=
  ⟨⟨by decide, by decide, by decide, by decide, by decide⟩,
   C8_no_writes_when_nonempty demoStore ⟨2026, 10, 12, 9, 0, 0, 0⟩ "monthly"
     (by decide) (by decide) (by decide) (by decide) (by decide)⟩

-- C9: determinism of the notification deriver

theorem seededStore_idem (now : PyDateTime) (st : Store) :
    seededStore now (seededStore now st) = seededStore now st := by
  show (list_budgets now (ensure_seed_data now (seededStore now st))).1 = _
  rw [ensure_seededStore, list_budgets_of_seeded]

theorem seededStore_of_nonempty (now : PyDateTime) (st : Store)
    (ha : st.accounts ≠ []) (hg : st.goals ≠ []) (hd : st.debts ≠ [])
    (ht : st.transactions ≠ []) (hb : st.budgets ≠ []) :
    seededStore now st = st := by
  unfold seededStore
  rw [ensure_id_of_nonempty now st ha hg hd ht]
  unfold list_budgets
  rw [ensure_id_of_nonempty now st ha hg hd ht]
  dsimp only
  rw [if_neg hb]

theorem get_notifications_fst (st : Store) (now : PyDateTime) :
    (get_notifications st now).1 = seededStore now st := by
  show (summary (seededStore now st) now "monthly").1 = seededStore now st
  rw [summary_fst, seededStore_idem]

theorem get_notifications_snd (st : Store) (now : PyDateTime) :
    (get_notifications st now).2
      = (seededStore now st).notifications
        ++ (budgetNotifs ((seededStore now st).budgets)
              ((summary (seededStore now st) now "monthly").2.budget_usage) now
          ++ billNotifs ((summary (seededStore now st) now "monthly").2.debts) now
          ++ ((summary (seededStore now st) now "monthly").2.goals).flatMap
              (goalNotif now)) := by
  unfold get_notifications
  dsimp only
  rw [show (list_budgets now (ensure_seed_data now st)).1 = seededStore now st from rfl,
    show (list_budgets now (ensure_seed_data now st)).2 = (seededStore now st).budgets
      from rfl,
    summary_fst, seededStore_idem]

/-- C9 amended: a second call on the store left by a first call, with the
same sampled instant, produces the same notification list (the deriver is
a function of the store state and the sampled clock alone). -/
theorem C9_deriver_deterministic (st : Store) (now : PyDateTime) :
    (get_notifications ((get_notifications st now).1) now).2
      = (get_notifications st now).2 := by
  rw [get_notifications_fst, get_notifications_snd, get_notifications_snd,
    seededStore_idem]

theorem budgetNotifs_mem_spec (budgets : List BudgetRec) (usage : List UsageEntry)
    (now : PyDateTime) :
    ∀ n ∈ budgetNotifs budgets usage now, n.kind = "budget" ∧ n.date = now := by
  intro n hn
  obtain ⟨b, _, hf⟩ := List.mem_filterMap.mp hn
  revert hf
  cases (usage.reverse).find? (fun e => decide (e.name = b.name)) with
  | none => intro hf; exact absurd hf (by simp)
  | some info =>
      dsimp only
      split_ifs
      · intro hf
        cases hf
        exact ⟨rfl, rfl⟩
      · intro hf; exact absurd hf (by simp)

theorem billNotifs_mem_spec (debts : List DebtRec) (now : PyDateTime) :
    ∀ n ∈ billNotifs debts now, n.kind = "bill" ∧ n.date = now := by
  intro n hn
  obtain ⟨d, _, hf⟩ := List.mem_filterMap.mp hn
  revert hf
  split_ifs
  · intro hf
    cases hf
    exact ⟨rfl, rfl⟩
  · intro hf; exact absurd hf (by simp)

theorem goalNotif_mem_spec (g : GoalRec) (now : PyDateTime) :
    ∀ n ∈ goalNotif now g, n.kind = "goal" ∧ n.date = now := by
  intro n hn
  revert hn
  simp only [goalNotif]
  split_ifs <;>
    · intro hn
      first
        | (rw [List.mem_singleton] at hn; subst hn; exact ⟨rfl, rfl⟩)
        | exact absurd hn (List.not_mem_nil n)

/-- Every derived notification is either a stored one or carries the
sampled instant as its timestamp. -/
theorem computed_notifs_spec (st : Store) (now : PyDateTime) :
    ∀ n ∈ (get_notifications st now).2,
      n ∈ st.notifications ∨ (n.date = now ∧
        (n.kind = "budget" ∨ n.kind = "bill" ∨ n.kind = "goal")) := by
  intro n hn
  rw [get_notifications_snd] at hn
  rcases List.mem_append.mp hn with h | h
  · left
    exact h
  · right
    rcases List.mem_append.mp h with h2 | h2
    · rcases List.mem_append.mp h2 with h3 | h3
      · have := budgetNotifs_mem_spec _ _ _ n h3
        exact ⟨this.2, Or.inl this.1⟩
      · have := billNotifs_mem_spec _ _ n h3
        exact ⟨this.2, Or.inr (Or.inl this.1)⟩
    · obtain ⟨g, _, hg⟩ := List.mem_flatMap.mp h2
      have := goalNotif_mem_spec g now n hg
      exact ⟨this.2, Or.inr (Or.inr this.1)⟩

/-- C9 counterexample: with an unchanged store but two different sampled
instants, the outputs differ (the bill notification's timestamp follows
the wall clock). -/
theorem C9_wall_clock_counterexample :
    (⟨2026, 10, 12, 10, 0, 0, 0⟩ : PyDateTime) ≠ ⟨2026, 10, 12, 11, 0, 0, 0⟩
    ∧ (get_notifications demoStore ⟨2026, 10, 12, 10, 0, 0, 0⟩).2
        ≠ (get_notifications demoStore ⟨2026, 10, 12, 11, 0, 0, 0⟩).2 := by
  refine ⟨by decide, ?_⟩
  intro h
  have hb : (⟨"bill", Msg.bill (some "D") 5, ⟨2026, 10, 12, 10, 0, 0, 0⟩⟩ : Notification)
      ∈ (get_notifications demoStore ⟨2026, 10, 12, 10, 0, 0, 0⟩).2 := by
    rw [get_notifications_snd]
    refine List.mem_append.mpr (Or.inr (List.mem_append.mpr (Or.inl
      (List.mem_append.mpr (Or.inr ?_)))))
    rw [(summary_snapshots (seededStore ⟨2026, 10, 12, 10, 0, 0, 0⟩ demoStore)
        ⟨2026, 10, 12, 10, 0, 0, 0⟩ "monthly").2.1, seededStore_idem,
      seededStore_of_nonempty _ demoStore (by decide) (by decide) (by decide)
        (by decide) (by decide)]
    decide
  rw [h] at hb
  have := computed_notifs_spec demoStore ⟨2026, 10, 12, 11, 0, 0, 0⟩ _ hb
  rcases this with hstored | hdate
  · exact absurd hstored (by decide)
  · exact absurd hdate.1 (by decide)

-- C4: the budget alert rule

/-- With pairwise-distinct budget names, the `usage_by_name` lookup (a
reversed search modelling dict-comprehension overwrite) finds exactly the
entry generated from the budget record itself. -/
theorem find_reverse_map (bs : List BudgetRec) (f : BudgetRec → UsageEntry)
    (hf : ∀ b, (f b).name = b.name)
    (hnd : (bs.map BudgetRec.name).Nodup) (b : BudgetRec) (hb : b ∈ bs) :
    ((bs.map f).reverse).find? (fun e => decide (e.name = b.name)) = some (f b) := by
  induction bs with
  | nil => cases hb
  | cons a l ih =>
      rw [List.map_cons, List.reverse_cons, List.find?_append]
      rcases List.mem_cons.mp hb with rfl | hbl
      · have hnotin : b.name ∉ l.map BudgetRec.name :=
          (List.nodup_cons.mp hnd).1
        have hnone : ((l.map f).reverse).find?
            (fun e => decide (e.name = b.name)) = none := by
          rw [List.find?_eq_none]
          intro e he
          rw [List.mem_reverse] at he
          obtain ⟨x, hx, rfl⟩ := List.mem_map.mp he
          simp only [decide_eq_true_eq, hf x]
          intro hEq
          exact hnotin (hEq ▸ List.mem_map_of_mem BudgetRec.name hx)
        rw [hnone]
        simp [List.find?, hf b]
      · have hnd' := (List.nodup_cons.mp hnd).2
        rw [ih hnd' hbl]
        rfl

theorem seeded_monthly_usage (st : Store) (now : PyDateTime) :
    (summary (seededStore now st) now "monthly").2.budget_usage
      = ((seededStore now st).budgets).map
          (usageOf (byCategory (monthExpenses (seededStore now st) now))) := by
  rw [summary_budget_usage, if_pos (Or.inl rfl), ensure_seededStore,
    list_budgets_of_seeded]

/-- C4 amended: when the budget-category names are pairwise distinct, the
deriver emits one budget notification per budget record whose monthly
budget is positive and whose month-to-date spend reaches 90% of it, with
the truncated integer percentage in the message, and no notification for
any other record. With duplicate names the dict lookup returns the last
entry, which can suppress or duplicate alerts. -/
theorem C4_budget_alert_rule (st : Store) (now : PyDateTime)
    (hnd : (((seededStore now st).budgets).map BudgetRec.name).Nodup) :
    budgetNotifs ((seededStore now st).budgets)
        ((summary (seededStore now st) now "monthly").2.budget_usage) now
      = ((seededStore now st).budgets).filterMap (fun b =>
          if 0 < b.monthly_budget.getD 0
              ∧ (0.9 : Rat) * b.monthly_budget.getD 0
                  ≤ monthSpent (seededStore now st) now b.name then
            some ⟨"budget",
              Msg.budgetPct b.name
                (pyInt (monthSpent (seededStore now st) now b.name
                  / b.monthly_budget.getD 0 * 100)), now⟩
          else none) := by
  rw [seeded_monthly_usage]
  unfold budgetNotifs
  apply List.filterMap_congr
  intro b hb
  rw [find_reverse_map _ _ (fun _ => rfl) hnd b hb]
  dsimp only
  rw [show (usageOf (byCategory (monthExpenses (seededStore now st) now)) b).budget
      = b.monthly_budget.getD 0 from rfl,
    usageOf_spent (seededStore now st) now b]

/-- A store with two budget records sharing the name Food. -/
def dupStore : Store :=
  ⟨[⟨some 95, none, some "Food", some "expense", none,
      some ⟨2026, 10, 5, 9, 0, 0, 0⟩, some false⟩],
   [⟨some "A", some "checking", some 100, none⟩],
   [⟨some "G", some 1000, some 10⟩],
   [⟨some "D", some 50, some 1, some 0⟩],
   [⟨some "Food", some 100⟩, ⟨some "Food", some 0⟩],
   []⟩

/-- C4 counterexample: the category Food appears in the monthly
budget_usage with budget 100 > 0 and spent 95 ≥ 90% of budget, yet the
deriver emits no budget notification at all, because the dict
comprehension keyed by name keeps only the last (budget 0) entry. -/
theorem C4_duplicate_name_counterexample :
    (∃ e ∈ (summary dupStore ⟨2026, 10, 12, 12, 0, 0, 0⟩ "monthly").2.budget_usage,
        e.name = some "Food" ∧ 0 < e.budget ∧ (0.9 : Rat) * e.budget ≤ e.spent)
    ∧ (∀ n ∈ (get_notifications dupStore ⟨2026, 10, 12, 12, 0, 0, 0⟩).2,
        n.kind ≠ "budget") := by
  constructor
  · refine ⟨⟨some "Food", 95, 100⟩, by decide, rfl, by norm_num, by norm_num⟩
  · intro n hn
    rw [get_notifications_snd] at hn
    have hseed : seededStore ⟨2026, 10, 12, 12, 0, 0, 0⟩ dupStore = dupStore :=
      seededStore_of_nonempty _ dupStore (by decide) (by decide) (by decide)
        (by decide) (by decide)
    rw [hseed] at hn
    rcases List.mem_append.mp hn with h | h
    · exact absurd h (List.not_mem_nil n)
    rcases List.mem_append.mp h with h2 | h2
    · rcases List.mem_append.mp h2 with h3 | h3
      · have hempty : budgetNotifs dupStore.budgets
            ((summary dupStore ⟨2026, 10, 12, 12, 0, 0, 0⟩ "monthly").2.budget_usage)
            ⟨2026, 10, 12, 12, 0, 0, 0⟩ = [] := by decide
        rw [hempty] at h3
        exact absurd h3 (List.not_mem_nil n)
      · have := billNotifs_mem_spec _ _ n h3
        rw [this.1]
        decide
    · obtain ⟨g, _, hg⟩ := List.mem_flatMap.mp h2
      have := goalNotif_mem_spec g _ n hg
      rw [this.1]
      decide

/-- Witness for C4: a single Food budget of 100 with 10 spent this month
(below 90%) produces no budget notifications, matching the rule. -/
theorem C4_budget_alert_rule_witness :
    ((((seededStore ⟨2026, 10, 12, 9, 30, 0, 0⟩ demoStore).budgets).map
        BudgetRec.name).Nodup)
    ∧ budgetNotifs ((seededStore ⟨2026, 10, 12, 9, 30, 0, 0⟩ demoStore).budgets)
        ((summary (seededStore ⟨2026, 10, 12, 9, 30, 0, 0⟩ demoStore)
          ⟨2026, 10, 12, 9, 30, 0, 0⟩ "monthly").2.budget_usage)
        ⟨2026, 10, 12, 9, 30, 0, 0⟩
      = ((seededStore ⟨2026, 10, 12, 9, 30, 0, 0⟩ demoStore).budgets).filterMap
          (fun b =>
            if 0 < b.monthly_budget.getD 0
                ∧ (0.9 : Rat) * b.monthly_budget.getD 0
                    ≤ monthSpent (seededStore ⟨2026, 10, 12, 9, 30, 0, 0⟩ demoStore)
                        ⟨2026, 10, 12, 9, 30, 0, 0⟩ b.name then
              some ⟨"budget",
                Msg.budgetPct b.name
                  (pyInt (monthSpent (seededStore ⟨2026, 10, 12, 9, 30, 0, 0⟩ demoStore)
                      ⟨2026, 10, 12, 9, 30, 0, 0⟩ b.name
                    / b.monthly_budget.getD 0 * 100)), ⟨2026, 10, 12, 9, 30, 0, 0⟩⟩
            else none) :=
  ⟨by decide,
   C4_budget_alert_rule demoStore ⟨2026, 10, 12, 9, 30, 0, 0⟩ (by decide)⟩
